import Mathlib

/-
Verification development for the cs-onboarding-agent repository.

The repository ships two artefacts: the CLI entry point
`cmd/onboarding-agent/main.go` and a README describing the service.  The
core package `pkg/onboarding` (stage engine, session store, ticket sync,
progress reporting) is declared and called by the CLI but its source is
not part of the checked-out tree, so the core components below are
modelled from the specification document; the CLI functions are embedded
directly from `main.go`.
-/

set_option autoImplicit false

namespace Onboarding

/-- Modelled from the spec: the fixed, ordered stage enumeration
{Welcome, EnvironmentSetup, TeamIntroduction, FirstTasks, Completion}
(spec section 3, "Stage"); the source file `pkg/onboarding/agent.go`
that would define it is absent from the tree. -/
inductive Stage where
  | welcome
  | environmentSetup
  | teamIntroduction
  | firstTasks
  | completion
deriving DecidableEq, Repr

/-- Modelled from the spec: zero-indexed ordinal position of a stage in
the catalog (spec section 3). -/
def Stage.ordinal : Stage → Nat
  | .welcome => 0
  | .environmentSetup => 1
  | .teamIntroduction => 2
  | .firstTasks => 3
  | .completion => 4

/-- Modelled from the spec: successor in the ordinal sequence; the
terminal stage has no successor (spec section 4.2 step 3). -/
def Stage.next : Stage → Stage
  | .welcome => .environmentSetup
  | .environmentSetup => .teamIntroduction
  | .teamIntroduction => .firstTasks
  | .firstTasks => .completion
  | .completion => .completion

/-- Modelled from the spec: display name of a stage (README stage list). -/
def Stage.displayName : Stage → String
  | .welcome => "Welcome"
  | .environmentSetup => "Environment Setup"
  | .teamIntroduction => "Team Introduction"
  | .firstTasks => "First Tasks"
  | .completion => "Completion"

/-- Modelled from the spec: guidance text shown while a stage is
current; for the terminal stage this text is the completion
acknowledgment (spec section 4.2 step 4). -/
def Stage.guidance : Stage → String
  | .welcome => "Verify your accounts and say done when ready."
  | .environmentSetup => "Configure your development environment."
  | .teamIntroduction => "Meet the team and learn the roles."
  | .firstTasks => "Pick up your first assignments."
  | .completion => "Onboarding complete. Congratulations!"

/-- Modelled from the spec: suggested next actions per stage (spec
section 4.2 step 5, purely descriptive). -/
def Stage.actions : Stage → List String
  | .welcome => ["check accounts", "read the handbook"]
  | .environmentSetup => ["install tools", "clone the repository"]
  | .teamIntroduction => ["schedule intro meetings"]
  | .firstTasks => ["take a starter task"]
  | .completion => ["share feedback"]

/-- Modelled from the spec: completion-trigger keywords per stage,
supplied as configuration (spec sections 4.2 and 6); the modelled
defaults make the scenario of spec section 8 pass.  Keywords are
stored lower-case and are never empty. -/
def Stage.keywords : Stage → List String
  | .completion => []
  | _ => ["completed", "done"]

/-- The terminal stage test (spec section 4.2 step 4). -/
def Stage.isTerminal (s : Stage) : Bool := s = .completion

/-- Number of stages in the catalog (spec section 4.4). -/
def totalStages : Nat := 5

/-- ASCII lower-casing of one character, used for the case-insensitive
keyword match of spec section 4.2 step 1. -/
def lowerChar (c : Char) : Char :=
  if 'A' ≤ c ∧ c ≤ 'Z' then Char.ofNat (c.toNat + 32) else c

/-- Whether the first character list is an initial segment of the
second. -/
def listStartsWith : List Char → List Char → Bool
  | [], _ => true
  | _ :: _, [] => false
  | p :: ps, c :: cs => p == c && listStartsWith ps cs

/-- Whether the first character list occurs contiguously inside the
second. -/
def listContains (pat : List Char) : List Char → Bool
  | [] => pat.isEmpty
  | c :: cs => listStartsWith pat (c :: cs) || listContains pat cs

/-- Modelled from the spec: case-insensitive keyword classification of
an input message against the completion triggers of the current stage (spec
section 4.2 step 1). -/
def matchesStage (st : Stage) (msg : String) : Bool :=
  st.keywords.any fun k => listContains k.data (msg.data.map lowerChar)

/-- Modelled from the spec: the onboarding run of one user (spec section 3,
"Session").  Timestamps are omitted: no verified claim concerns real
time. -/
structure Session where
  sessionID : String
  userID : String
  username : String
  email : String
  currentStage : Stage
  completionFlag : Bool
  ticketID : Option String
  history : List String
deriving DecidableEq, Repr

/-- Modelled from the spec: the ticket event emitted on a stage advance
(spec section 4.2 step 3). -/
inductive TicketEvent where
  | advance (sessionID : String) (newStage : Stage)
deriving DecidableEq, Repr

/-- Result record of `StageEngine.Advance` (spec section 4.2). -/
structure AdvanceResult where
  newStage : Stage
  responseText : String
  actionsList : List String
  ticketEvent : Option TicketEvent
  completionFlag : Bool
deriving DecidableEq, Repr

/-- Modelled from the spec: the pure stage-engine decision
`Advance(session, inputMessage)` of spec section 4.2.  At the terminal
stage every message takes the step 4 path; a matched trigger advances
one stage and emits a ticket event; otherwise the current guidance is
restated with no event. -/
def advance (session : Session) (inputMessage : String) : AdvanceResult :=
  if session.currentStage.isTerminal then
    { newStage := session.currentStage
      responseText := session.currentStage.guidance
      actionsList := session.currentStage.actions
      ticketEvent := none
      completionFlag := true }
  else if matchesStage session.currentStage inputMessage then
    let ns := session.currentStage.next
    { newStage := ns
      responseText := ns.guidance
      actionsList := ns.actions
      ticketEvent := some (TicketEvent.advance session.sessionID ns)
      completionFlag := session.completionFlag }
  else
    { newStage := session.currentStage
      responseText := session.currentStage.guidance
      actionsList := session.currentStage.actions
      ticketEvent := none
      completionFlag := session.completionFlag }

/-- Modelled from the spec: `Progress(session)` as the fraction
`currentStage.ordinal / (totalStages - 1)` (spec section 4.4). -/
def progress (session : Session) : ℚ :=
  (session.currentStage.ordinal : ℚ) / ((totalStages : ℚ) - 1)

/-- Modelled from the spec: `Summarize(session)` combining stage name
and completion flag (spec section 4.4; elapsed time is omitted with the
timestamps). -/
def summarize (session : Session) : String :=
  session.currentStage.displayName ++
    (if session.completionFlag then " - completed" else " - in progress")

/-- Modelled from the spec: the concurrency-safe keyed session storage
(spec section 4.1).  Per-session serialization (spec section 5) lets an
execution be modelled as a sequence of atomic operations, so the store
is a key-value list threaded through them. -/
def SessionStore := List (String × Session)

/-- `Get(sessionID)` of spec section 4.1. -/
def SessionStore.get : SessionStore → String → Option Session
  | [], _ => none
  | (k, s) :: rest, sid => if k = sid then some s else SessionStore.get rest sid

/-- The write half of `Update(sessionID, mutatorFn)` of spec section
4.1: bind `sid` to the mutated session. -/
def SessionStore.set (store : SessionStore) (sid : String) (s : Session) : SessionStore :=
  (sid, s) :: store

/-- Error taxonomy of spec section 7 as seen by the transport
collaborator. -/
inductive CoreError where
  | notFound
  | validationError
deriving DecidableEq, Repr

/-- Response shape of `PostMessage` (spec section 6). -/
structure PostMessageResponse where
  responseMessage : String
  nextActions : List String
  stage : Stage
  progress : ℚ
deriving DecidableEq, Repr

/-- Response shape of `GetStatus` (spec section 6). -/
structure StatusResponse where
  stage : Stage
  progress : ℚ
  summaryText : String
deriving DecidableEq, Repr

/-- One message applied to one session: the stage-engine decision plus
the session mutation it proposes (spec section 2 control flow). -/
def applyMessage (session : Session) (msg : String) :
    Session × PostMessageResponse × Option TicketEvent :=
  let r := advance session msg
  let session2 : Session :=
    { session with
        currentStage := r.newStage
        completionFlag := r.completionFlag
        history := session.history ++ [msg] }
  (session2,
   { responseMessage := r.responseText
     nextActions := r.actionsList
     stage := r.newStage
     progress := progress session2 },
   r.ticketEvent)

/-- Modelled from the spec: `PostMessage(sessionID, message)` (spec
section 6) without the ticket-sync pass: lookup, stage-engine decision,
persist, respond; unknown ids fail with `NotFound`. -/
def postMessage (store : SessionStore) (sid msg : String) :
    Except CoreError (PostMessageResponse × SessionStore × Option TicketEvent) :=
  match store.get sid with
  | none => Except.error CoreError.notFound
  | some session =>
    let a := applyMessage session msg
    Except.ok (a.2.1, store.set sid a.1, a.2.2)

/-- Modelled from the spec: `GetStatus(sessionID)` (spec section 6). -/
def getStatus (store : SessionStore) (sid : String) : Except CoreError StatusResponse :=
  match store.get sid with
  | none => Except.error CoreError.notFound
  | some s =>
    Except.ok { stage := s.currentStage, progress := progress s, summaryText := summarize s }

/-- Runs a sequence of `PostMessage` calls on one session id, returning
the final store and the ordinals of the stages returned to the caller
(failed calls return no stage). -/
def runPostMessages : SessionStore → String → List String → SessionStore × List Nat
  | store, _, [] => (store, [])
  | store, sid, msg :: rest =>
    match postMessage store sid msg with
    | Except.error _ => runPostMessages store sid rest
    | Except.ok out =>
      let r := runPostMessages out.2.1 sid rest
      (r.1, out.1.stage.ordinal :: r.2)

/-- Collaborator error classes of spec section 4.3. -/
inductive TicketErr where
  | retryable
  | fatal
deriving DecidableEq, Repr

/-- One response of the `CreateTicket` collaborator (spec section 6). -/
inductive CreateResult where
  | ok (ticketID : String)
  | err (e : TicketErr)
deriving DecidableEq, Repr

/-- Modelled from the spec: the bounded-retry create of spec section
4.3.  `oracle` gives the response of the collaborator to the i-th
`CreateTicket` invocation of the execution, `start` the index of the
next invocation and the second argument the remaining attempt budget.
Returns the number of invocations issued and the outcome; a retryable
failure with exhausted budget is surfaced. -/
def createWithRetry (oracle : Nat → CreateResult) : Nat → Nat → Nat × Except TicketErr String
  | _, 0 => (0, Except.error TicketErr.retryable)
  | i, n + 1 =>
    match oracle i with
    | CreateResult.ok tid => (1, Except.ok tid)
    | CreateResult.err TicketErr.fatal => (1, Except.error TicketErr.fatal)
    | CreateResult.err TicketErr.retryable =>
      let r := createWithRetry oracle (i + 1) n
      (r.1 + 1, r.2)

/-- Modelled from the spec: one serialized `TicketSync.Reconcile`
attempt for a session (spec section 4.3): if a ticket identifier is
already present the create is skipped (update path, no create
invocation); otherwise `CreateTicket` is called with retries and a
returned identifier is stored on the session.  Returns the new session,
the number of `CreateTicket` invocations, and the outcome. -/
def reconcileStep (oracle : Nat → CreateResult) (maxAttempts start : Nat) (session : Session) :
    Session × Nat × Except TicketErr Unit :=
  match session.ticketID with
  | some _ => (session, 0, Except.ok ())
  | none =>
    let r := createWithRetry oracle start maxAttempts
    match r.2 with
    | Except.ok tid => ({ session with ticketID := some tid }, r.1, Except.ok ())
    | Except.error e => (session, r.1, Except.error e)

/-- A serialized sequence of reconcile attempts on one session,
threading the global invocation index.  Returns the final session, the
total number of `CreateTicket` invocations, and the number of
invocations that succeeded. -/
def runReconciles (oracle : Nat → CreateResult) (maxAttempts : Nat) :
    Nat → Session → Nat → Session × Nat × Nat
  | _, session, 0 => (session, 0, 0)
  | start, session, k + 1 =>
    let step := reconcileStep oracle maxAttempts start session
    let succ1 :=
      match session.ticketID, step.2.2 with
      | none, Except.ok _ => 1
      | _, _ => 0
    let rest := runReconciles oracle maxAttempts (start + step.2.1) step.1 k
    (rest.1, step.2.1 + rest.2.1, succ1 + rest.2.2)

/-- Everything a `PostMessage` call with its synchronous ticket-sync
pass produces (spec section 2 control flow). -/
structure FullResult where
  response : PostMessageResponse
  store : SessionStore
  syncResult : Except TicketErr Unit
  createCalls : Nat
  event : Option TicketEvent

/-- Modelled from the spec: `PostMessage` followed by the ticket
reconciliation of the emitted event (spec sections 2 and 4.3).  The
stage change is committed to the store and the response built before
reconciliation; a reconciliation failure is surfaced in `syncResult`
and never rolls the stage back. -/
def postMessageFull (oracle : Nat → CreateResult) (maxAttempts : Nat)
    (store : SessionStore) (sid msg : String) : Except CoreError FullResult :=
  match store.get sid with
  | none => Except.error CoreError.notFound
  | some session =>
    let a := applyMessage session msg
    match a.2.2 with
    | none =>
      Except.ok
        { response := a.2.1, store := store.set sid a.1
          syncResult := Except.ok (), createCalls := 0, event := none }
    | some e =>
      let step := reconcileStep oracle maxAttempts 0 a.1
      Except.ok
        { response := a.2.1, store := store.set sid step.1
          syncResult := step.2.2, createCalls := step.2.1, event := some e }

/-- The session mutation a message applied at the terminal stage
produces: stage stays at Completion, the completion flag is set, the
message is appended to the history (spec section 4.2 step 4). -/
def completedUpdate (s : Session) (msg : String) : Session :=
  { s with
      currentStage := Stage.completion
      completionFlag := true
      history := s.history ++ [msg] }

/-- The completion acknowledgment response of spec section 4.2 step 4:
terminal stage, progress 1, the terminal guidance text. -/
def completionResponse : PostMessageResponse :=
  { responseMessage := Stage.completion.guidance
    nextActions := Stage.completion.actions
    stage := Stage.completion
    progress := 1 }

/-- A sample session at the first stage, for concrete checks. -/
def sampleWelcome : Session :=
  { sessionID := "s1", userID := "u1", username := "jane", email := "jane@x.com"
    currentStage := Stage.welcome, completionFlag := false, ticketID := none, history := [] }

/-- A sample session at ordinal 2, for concrete checks. -/
def sampleTeamIntro : Session := { sampleWelcome with currentStage := Stage.teamIntroduction }

/-- A sample session at the terminal stage, for concrete checks. -/
def sampleDone : Session :=
  { sampleWelcome with sessionID := "s2", currentStage := Stage.completion }

/-- A sample session that already carries a ticket identifier. -/
def sampleTicketed : Session := { sampleWelcome with sessionID := "s3", ticketID := some "OCM-1" }

/-- A collaborator double that always reports a timeout. -/
def alwaysRetry : Nat → CreateResult := fun _ => CreateResult.err TicketErr.retryable

/-- A collaborator double that always succeeds. -/
def alwaysOk : Nat → CreateResult := fun _ => CreateResult.ok "OCM-2"

/-- A store holding the sample sessions. -/
def sampleStore : SessionStore :=
  SessionStore.set (SessionStore.set [] "s2" sampleDone) "s1" sampleWelcome

end Onboarding

namespace AgentCli

/-- Network calls the CLI can issue, from `main.go`: the start POST of
`startOnboardingSession`, the message POST of `sendMessage`, and the
status GET of `showStatus`. -/
inductive NetCall where
  | startSession (userID username email : String)
  | postMsg (sessionID msg : String)
  | statusGet (sessionID : String)
deriving DecidableEq, Repr

/-- `StartSessionResponse` of `main.go`: the decoded start payload
(the float64 progress is modelled as a rational). -/
structure StartSessionResponse where
  session_id : String
  message : String
  stage : String
  progress : ℚ
deriving DecidableEq, Repr

/-- `MessageResponse` of `main.go`: the decoded message payload. -/
structure MessageResponse where
  message : String
  next_actions : List String
  stage : String
  progress : ℚ
deriving DecidableEq, Repr

/-- The `json.RawMessage` data field of the envelope, embedded as what
each `json.Unmarshal` call in `main.go` would yield on it. -/
structure RawData where
  decodeStart : Option StartSessionResponse
  decodeMsg : Option MessageResponse
deriving DecidableEq, Repr

/-- `ApiResponse` of `main.go`: the API envelope. -/
structure ApiResponse where
  success : Bool
  data : RawData
  error : String
deriving DecidableEq, Repr

/-- A received HTTP body, embedded as what `json.NewDecoder(...).Decode`
in `main.go` would yield on it. -/
structure HttpBody where
  decodeEnvelope : Option ApiResponse
deriving DecidableEq, Repr

/-- Outcome of one `http.Post` or `http.Get` in `main.go`: a transport
error or a body. -/
inductive HttpResult where
  | netErr (msg : String)
  | ok (body : HttpBody)
deriving DecidableEq, Repr

/-- The error values the CLI helpers can return. -/
inductive CliError where
  | httpError (msg : String)
  | decodeError
  | apiError (msg : String)
deriving DecidableEq, Repr

/-- `startOnboardingSession` of `main.go` (lines 253-284), embedded over
the outcome of its HTTP POST: propagate a transport error, fail if the
envelope does not decode, fail with the API error if `Success` is
false, fail if the data payload does not decode, otherwise return the
decoded `session_id`. -/
def startOnboardingSession : HttpResult → Except CliError String
  | HttpResult.netErr e => Except.error (CliError.httpError e)
  | HttpResult.ok body =>
    match body.decodeEnvelope with
    | none => Except.error CliError.decodeError
    | some apiResp =>
      if apiResp.success then
        match apiResp.data.decodeStart with
        | none => Except.error CliError.decodeError
        | some sessionResp => Except.ok sessionResp.session_id
      else Except.error (CliError.apiError apiResp.error)

/-- `sendMessage` of `main.go` (lines 286-315), embedded over the
outcome of its HTTP POST; same envelope handling, returning the decoded
`MessageResponse`. -/
def sendMessage : HttpResult → Except CliError MessageResponse
  | HttpResult.netErr e => Except.error (CliError.httpError e)
  | HttpResult.ok body =>
    match body.decodeEnvelope with
    | none => Except.error CliError.decodeError
    | some apiResp =>
      if apiResp.success then
        match apiResp.data.decodeMsg with
        | none => Except.error CliError.decodeError
        | some msgResp => Except.ok msgResp
      else Except.error (CliError.apiError apiResp.error)

/-- How one run of `runInteractive` in `main.go` ends before the chat
loop: the identity check at lines 161-164 exits with status 1, a failed
start exits with status 1, a successful start enters the loop. -/
inductive CliOutcome where
  | validationFailure
  | startFailure (e : CliError)
  | sessionStarted (sessionID : String)
deriving DecidableEq, Repr

/-- The pre-loop part of `runInteractive` in `main.go` (lines 160-177):
reject a missing `--user-id`, `--username` or `--email` before issuing
any network call, otherwise issue exactly the start POST.  The second
argument is the outcome of that POST.  Returns the exit outcome and the
network calls issued. -/
def runInteractiveInit (userID username email : String) (startResult : HttpResult) :
    CliOutcome × List NetCall :=
  if userID = "" || username = "" || email = "" then
    (CliOutcome.validationFailure, [])
  else
    match startOnboardingSession startResult with
    | Except.error e => (CliOutcome.startFailure e, [NetCall.startSession userID username email])
    | Except.ok sid => (CliOutcome.sessionStarted sid, [NetCall.startSession userID username email])

/-- What the chat loop of `runInteractive` does with one input line. -/
inductive LoopAction where
  | skip
  | quitLoop
  | statusQuery
  | post (msg : String)
deriving DecidableEq, Repr

/-- The whitespace class trimmed by `strings.TrimSpace` in `main.go`
(ASCII part; the exotic unicode space characters are outside the
modelled input alphabet). -/
def isSpaceChar (c : Char) : Bool :=
  c == ' ' || c == '\t' || c == '\n' || c == '\r' || c == '\x0b' || c == '\x0c'

/-- `strings.TrimSpace` of `main.go` line 187: drop leading and
trailing whitespace. -/
def trimSpace (s : String) : String :=
  String.mk (((s.data.dropWhile isSpaceChar).reverse.dropWhile isSpaceChar).reverse)

/-- The dispatch of one input line in the chat loop of `runInteractive`
(`main.go` lines 187-205): trim the line, skip an empty result, stop on
exactly "quit" or "exit", show status on exactly "status", otherwise
post the trimmed line. -/
def dispatchLine (line : String) : LoopAction :=
  let message := trimSpace line
  if message = "" then LoopAction.skip
  else if message = "quit" ∨ message = "exit" then LoopAction.quitLoop
  else if message = "status" then LoopAction.statusQuery
  else LoopAction.post message

/-- The chat loop of `runInteractive` over a list of input lines,
collecting the network calls it issues: a status line issues one status
GET, a posted line one message POST, quit and exit end the loop. -/
def runLoop (sessionID : String) : List String → List NetCall
  | [] => []
  | line :: rest =>
    match dispatchLine line with
    | LoopAction.skip => runLoop sessionID rest
    | LoopAction.quitLoop => []
    | LoopAction.statusQuery => NetCall.statusGet sessionID :: runLoop sessionID rest
    | LoopAction.post m => NetCall.postMsg sessionID m :: runLoop sessionID rest

/-- A sample decoded start payload, for concrete checks. -/
def sampleStartResp : StartSessionResponse :=
  { session_id := "sess-1", message := "welcome aboard", stage := "Welcome", progress := 0 }

/-- A sample decoded message payload, for concrete checks. -/
def sampleMsgResp : MessageResponse :=
  { message := "nice work", next_actions := ["install tools"], stage := "Environment Setup"
    progress := 1/4 }

/-- A sample successful envelope carrying both payloads. -/
def sampleOkBody : HttpBody :=
  { decodeEnvelope :=
      some { success := true
             data := { decodeStart := some sampleStartResp, decodeMsg := some sampleMsgResp }
             error := "" } }

/-- A sample envelope whose success flag is false. -/
def sampleFailBody : HttpBody :=
  { decodeEnvelope :=
      some { success := false
             data := { decodeStart := some sampleStartResp, decodeMsg := some sampleMsgResp }
             error := "boom" } }

end AgentCli

namespace Onboarding

theorem ordinal_le_next : ∀ s : Stage, s.ordinal ≤ s.next.ordinal := by
  intro s
  cases s <;> decide

theorem advance_mono (s : Session) (msg : String) :
    s.currentStage.ordinal ≤ (advance s msg).newStage.ordinal := by
  unfold advance
  by_cases h1 : s.currentStage.isTerminal
  · simp [h1]
  · by_cases h2 : matchesStage s.currentStage msg
    · simp [h1, h2, ordinal_le_next]
    · simp [h1, h2]

theorem SessionStore.get_set (store : SessionStore) (sid : String) (s : Session) :
    (store.set sid s).get sid = some s := by
  simp [SessionStore.get, SessionStore.set]

theorem applyMessage_session_stage (s : Session) (msg : String) :
    ((applyMessage s msg).1).currentStage = (advance s msg).newStage := rfl

theorem applyMessage_resp_stage (s : Session) (msg : String) :
    ((applyMessage s msg).2.1).stage = (advance s msg).newStage := rfl

theorem postMessage_get_none {store : SessionStore} {sid : String} (msg : String)
    (h : store.get sid = none) : postMessage store sid msg = Except.error CoreError.notFound := by
  simp [postMessage, h]

theorem postMessage_get_some {store : SessionStore} {sid : String} {s : Session} (msg : String)
    (h : store.get sid = some s) :
    postMessage store sid msg =
      Except.ok ((applyMessage s msg).2.1, store.set sid (applyMessage s msg).1,
        (applyMessage s msg).2.2) := by
  simp [postMessage, h]

theorem runPostMessages_unknown (msgs : List String) (store : SessionStore) (sid : String)
    (h : store.get sid = none) : runPostMessages store sid msgs = (store, []) := by
  induction msgs with
  | nil => rfl
  | cons m rest ih => simp [runPostMessages, postMessage_get_none m h, ih]

theorem runPostMessages_chain (msgs : List String) :
    ∀ (store : SessionStore) (sid : String) (s : Session), store.get sid = some s →
      List.Chain' (fun a b => a ≤ b)
        (s.currentStage.ordinal :: (runPostMessages store sid msgs).2) := by
  induction msgs with
  | nil =>
    intro store sid s _
    simp [runPostMessages]
  | cons m rest ih =>
    intro store sid s h
    have h2 : (store.set sid (applyMessage s m).1).get sid = some (applyMessage s m).1 :=
      SessionStore.get_set store sid (applyMessage s m).1
    have h3 := ih (store.set sid (applyMessage s m).1) sid (applyMessage s m).1 h2
    rw [applyMessage_session_stage] at h3
    simp only [runPostMessages, postMessage_get_some m h]
    exact List.chain'_cons.mpr ⟨advance_mono s m, h3⟩

/-- C1: for every session and every sequence of PostMessage calls on
it, the sequence of stage ordinals returned to the caller is
non-decreasing — each call advances the stage or leaves it unchanged,
never regresses it. -/
theorem postMessage_stage_monotone (store : SessionStore) (sid : String) (msgs : List String) :
    List.Chain' (fun a b => a ≤ b) (runPostMessages store sid msgs).2 := by
  cases h : store.get sid with
  | none =>
    rw [runPostMessages_unknown msgs store sid h]
    exact List.chain'_nil
  | some s => exact (runPostMessages_chain msgs store sid s h).tail

/-- C2: Progress(session) equals currentStage.ordinal divided by
(totalStages - 1), lies in [0,1], is exactly 1 at the terminal stage,
and a session at zero-indexed ordinal 2 of the 5-stage catalog reports
progress 1/2. -/
theorem progress_formula (s : Session) :
    progress s = (s.currentStage.ordinal : ℚ) / ((totalStages : ℚ) - 1) ∧
    0 ≤ progress s ∧ progress s ≤ 1 ∧
    (s.currentStage = Stage.completion → progress s = 1) ∧
    (s.currentStage.ordinal = 2 → progress s = 1/2) := by
  refine ⟨rfl, ?_, ?_, ?_, ?_⟩ <;>
    cases h : s.currentStage <;>
      simp [progress, totalStages, Stage.ordinal, h] <;> norm_num

/-- Witness for C2 at concrete sessions: the terminal sample has
progress 1 and the ordinal-2 sample has progress 1/2. -/
theorem progress_formula_check :
    progress sampleDone = 1 ∧ progress sampleTeamIntro = 1/2 :=
  ⟨(progress_formula sampleDone).2.2.2.1 rfl, (progress_formula sampleTeamIntro).2.2.2.2 rfl⟩

/-- C5: when the input message matches none of the completion
triggers of the current stage, Advance leaves the stage unchanged, restates the
guidance of the current stage, and emits no ticket event; it is a total
function and never returns an error. -/
theorem advance_no_trigger (s : Session) (msg : String)
    (h : matchesStage s.currentStage msg = false) :
    (advance s msg).newStage = s.currentStage ∧
    (advance s msg).responseText = s.currentStage.guidance ∧
    (advance s msg).actionsList = s.currentStage.actions ∧
    (advance s msg).ticketEvent = none := by
  unfold advance
  by_cases h1 : s.currentStage.isTerminal
  · simp [h1]
  · simp [h1, h]

theorem advance_terminal (s : Session) (msg : String) (h : s.currentStage = Stage.completion) :
    advance s msg =
      { newStage := Stage.completion
        responseText := Stage.completion.guidance
        actionsList := Stage.completion.actions
        ticketEvent := none
        completionFlag := true } := by
  simp [advance, h, Stage.isTerminal]

theorem progress_terminal (s : Session) (h : s.currentStage = Stage.completion) :
    progress s = 1 := by
  simp [progress, h, Stage.ordinal, totalStages]
  norm_num

theorem applyMessage_terminal (s : Session) (msg : String)
    (h : s.currentStage = Stage.completion) :
    applyMessage s msg = (completedUpdate s msg, completionResponse, none) := by
  unfold applyMessage
  rw [advance_terminal s msg h]
  have hp : progress (completedUpdate s msg) = 1 := progress_terminal _ rfl
  simp [completedUpdate, completionResponse] at hp ⊢
  simp [hp]

/-- C4: once the current stage of a session is the terminal Completion
stage, every further PostMessage is idempotent: same completion
acknowledgment, same terminal stage, progress 1, the completion flag
set, no ticket event and no ticket-create call, and a repeated message
yields the same response again. -/
theorem completion_idempotent (oracle : Nat → CreateResult) (maxAttempts : Nat)
    (store : SessionStore) (sid msg msg2 : String) (s : Session)
    (h1 : store.get sid = some s) (h2 : s.currentStage = Stage.completion) :
    ∃ fr : FullResult, postMessageFull oracle maxAttempts store sid msg = Except.ok fr ∧
      fr.response = completionResponse ∧
      fr.response.stage = Stage.completion ∧ fr.response.progress = 1 ∧
      fr.event = none ∧ fr.createCalls = 0 ∧ fr.syncResult = Except.ok () ∧
      (∃ s2, fr.store.get sid = some s2 ∧ s2.completionFlag = true ∧
        s2.currentStage = Stage.completion) ∧
      ∃ fr2 : FullResult, postMessageFull oracle maxAttempts fr.store sid msg2 = Except.ok fr2 ∧
        fr2.response = completionResponse ∧ fr2.event = none ∧ fr2.createCalls = 0 ∧
        ∃ s3, fr2.store.get sid = some s3 ∧ s3.completionFlag = true ∧
          s3.currentStage = Stage.completion := by
  have ha := applyMessage_terminal s msg h2
  have hpost : postMessageFull oracle maxAttempts store sid msg =
      Except.ok
        { response := completionResponse
          store := store.set sid (completedUpdate s msg)
          syncResult := Except.ok (), createCalls := 0, event := none } := by
    simp [postMessageFull, h1, ha]
  have ha2 := applyMessage_terminal (completedUpdate s msg) msg2 rfl
  have hpost2 : postMessageFull oracle maxAttempts (store.set sid (completedUpdate s msg)) sid
        msg2 =
      Except.ok
        { response := completionResponse
          store := (store.set sid (completedUpdate s msg)).set sid
            (completedUpdate (completedUpdate s msg) msg2)
          syncResult := Except.ok (), createCalls := 0, event := none } := by
    simp [postMessageFull, SessionStore.get_set, ha2]
  refine ⟨_, hpost, rfl, rfl, rfl, rfl, rfl, rfl,
    ⟨completedUpdate s msg, SessionStore.get_set store sid _, rfl, rfl⟩,
    _, hpost2, rfl, rfl, rfl,
    ⟨completedUpdate (completedUpdate s msg) msg2, SessionStore.get_set _ sid _, rfl, rfl⟩⟩

/-- Witness for C4 at a concrete terminal session. -/
theorem completion_idempotent_check :
    ∃ fr : FullResult, postMessageFull alwaysRetry 2 sampleStore "s2" "hello" = Except.ok fr ∧
      fr.response = completionResponse ∧
      fr.response.stage = Stage.completion ∧ fr.response.progress = 1 ∧
      fr.event = none ∧ fr.createCalls = 0 ∧ fr.syncResult = Except.ok () ∧
      (∃ s2, fr.store.get "s2" = some s2 ∧ s2.completionFlag = true ∧
        s2.currentStage = Stage.completion) ∧
      ∃ fr2 : FullResult, postMessageFull alwaysRetry 2 fr.store "s2" "again" = Except.ok fr2 ∧
        fr2.response = completionResponse ∧ fr2.event = none ∧ fr2.createCalls = 0 ∧
        ∃ s3, fr2.store.get "s2" = some s3 ∧ s3.completionFlag = true ∧
          s3.currentStage = Stage.completion :=
  completion_idempotent alwaysRetry 2 sampleStore "s2" "hello" "again" sampleDone rfl rfl

/-- C7: an unknown session id makes both PostMessage and GetStatus fail
with NotFound, propagated unhidden; a known id makes both succeed with
the described result shapes. -/
theorem unknown_session_not_found (store : SessionStore) (sid msg : String) :
    (store.get sid = none →
      postMessage store sid msg = Except.error CoreError.notFound ∧
      getStatus store sid = Except.error CoreError.notFound) ∧
    ∀ s, store.get sid = some s →
      (∃ out, postMessage store sid msg = Except.ok out ∧
        out.1.stage = (advance s msg).newStage) ∧
      getStatus store sid = Except.ok
        { stage := s.currentStage, progress := progress s, summaryText := summarize s } := by
  constructor
  · intro h
    exact ⟨postMessage_get_none msg h, by simp [getStatus, h]⟩
  · intro s h
    exact ⟨⟨_, postMessage_get_some msg h, applyMessage_resp_stage s msg⟩, by simp [getStatus, h]⟩

/-- Witness for C7 on the empty store and on a populated store. -/
theorem unknown_session_not_found_check :
    postMessage ([] : SessionStore) "nope" "hi" = Except.error CoreError.notFound ∧
    getStatus ([] : SessionStore) "nope" = Except.error CoreError.notFound ∧
    getStatus sampleStore "s1" = Except.ok
      { stage := sampleWelcome.currentStage, progress := progress sampleWelcome
        summaryText := summarize sampleWelcome } := by
  refine ⟨?_, ?_, ?_⟩
  · exact ((unknown_session_not_found ([] : SessionStore) "nope" "hi").1 rfl).1
  · exact ((unknown_session_not_found ([] : SessionStore) "nope" "hi").1 rfl).2
  · exact ((unknown_session_not_found sampleStore "s1" "hi").2 sampleWelcome rfl).2

theorem reconcileStep_stage (oracle : Nat → CreateResult) (maxAttempts start : Nat)
    (sess : Session) :
    (reconcileStep oracle maxAttempts start sess).1.currentStage = sess.currentStage := by
  unfold reconcileStep
  cases hx : sess.ticketID with
  | some t => rfl
  | none =>
    cases hy : (createWithRetry oracle start maxAttempts).2 with
    | ok tid => simp [hy]
    | error e => simp [hy]

theorem reconcileStep_ticket_present (oracle : Nat → CreateResult) (maxAttempts start : Nat)
    (sess : Session) (t : String) (h : sess.ticketID = some t) :
    reconcileStep oracle maxAttempts start sess = (sess, 0, Except.ok ()) := by
  simp [reconcileStep, h]

theorem reconcileStep_ok_ticket (oracle : Nat → CreateResult) (maxAttempts start : Nat)
    (sess : Session) (h : sess.ticketID = none)
    (hok : (reconcileStep oracle maxAttempts start sess).2.2 = Except.ok ()) :
    ∃ tid, (reconcileStep oracle maxAttempts start sess).1.ticketID = some tid := by
  unfold reconcileStep at hok ⊢
  rw [h] at hok ⊢
  cases hy : (createWithRetry oracle start maxAttempts).2 with
  | ok tid => exact ⟨tid, by simp [hy]⟩
  | error e => simp [hy] at hok

theorem runReconciles_ticket_present (oracle : Nat → CreateResult) (maxAttempts : Nat) :
    ∀ (k start : Nat) (sess : Session) (t : String), sess.ticketID = some t →
      runReconciles oracle maxAttempts start sess k = (sess, 0, 0) := by
  intro k
  induction k with
  | zero => intro start sess t h; rfl
  | succ n ih =>
    intro start sess t h
    have hstep := reconcileStep_ticket_present oracle maxAttempts start sess t h
    simp [runReconciles, hstep, h, ih start sess t h]

/-- C6: when reconciliation fails after its bounded retries, the
failure is surfaced in the result but the committed stage change is not
rolled back — the response and the stored session still report the
advanced stage. -/
theorem sync_failure_not_rolled_back (oracle : Nat → CreateResult) (maxAttempts : Nat)
    (store : SessionStore) (sid msg : String) (s : Session)
    (h1 : store.get sid = some s)
    (h2 : Except.map FullResult.syncResult (postMessageFull oracle maxAttempts store sid msg) =
      Except.ok (Except.error TicketErr.retryable)) :
    ∃ fr : FullResult, postMessageFull oracle maxAttempts store sid msg = Except.ok fr ∧
      fr.syncResult = Except.error TicketErr.retryable ∧
      fr.response.stage = (advance s msg).newStage ∧
      ∃ s2, fr.store.get sid = some s2 ∧ s2.currentStage = (advance s msg).newStage := by
  simp only [postMessageFull, h1] at h2 ⊢
  cases hev : (applyMessage s msg).2.2 with
  | none =>
    rw [hev] at h2
    simp [Except.map] at h2
  | some e =>
    rw [hev] at h2
    simp [Except.map] at h2
    refine ⟨_, rfl, ?_, ?_, ?_⟩
    · simpa using h2
    · exact applyMessage_resp_stage s msg
    · refine ⟨_, SessionStore.get_set store sid _, ?_⟩
      rw [reconcileStep_stage, applyMessage_session_stage]

/-- Witness for C6: a collaborator that always times out makes the sync
fail after both attempts, yet the stage advance from Welcome survives
in the response and the store. -/
theorem sync_failure_not_rolled_back_check :
    ∃ fr : FullResult, postMessageFull alwaysRetry 2 sampleStore "s1" "done" = Except.ok fr ∧
      fr.syncResult = Except.error TicketErr.retryable ∧
      fr.response.stage = (advance sampleWelcome "done").newStage ∧
      ∃ s2, fr.store.get "s1" = some s2 ∧
        s2.currentStage = (advance sampleWelcome "done").newStage :=
  sync_failure_not_rolled_back alwaysRetry 2 sampleStore "s1" "done" sampleWelcome rfl rfl

/-- C3 counterexample: with a collaborator that keeps timing out, one
reconcile attempt with an attempt budget of two on a session without a
ticket identifier invokes CreateTicket twice — the bounded-retry policy of
the spec itself re-invokes the create after a lost response, so
"CreateTicket is invoked at most once" fails as stated. -/
theorem reconcile_create_invoked_twice :
    1 < (runReconciles alwaysRetry 2 0 sampleWelcome 1).2.1 := by decide

/-- C3 amended: across any serialized sequence of reconcile attempts at
most one CreateTicket invocation succeeds, and whenever a ticket
identifier is already present on the session every reconcile attempt
skips creation entirely (zero invocations, session unchanged); a second
invocation can only be a retry of a failed one. -/
theorem reconcile_at_most_one_successful_create (oracle : Nat → CreateResult)
    (maxAttempts k start : Nat) (sess : Session) :
    (runReconciles oracle maxAttempts start sess k).2.2 ≤ 1 ∧
    ∀ t, sess.ticketID = some t →
      runReconciles oracle maxAttempts start sess k = (sess, 0, 0) := by
  constructor
  · induction k generalizing start sess with
    | zero => simp [runReconciles]
    | succ n ih =>
      cases hx : sess.ticketID with
      | some t =>
        rw [runReconciles_ticket_present oracle maxAttempts (n + 1) start sess t hx]
        exact Nat.zero_le 1
      | none =>
        cases hy : (reconcileStep oracle maxAttempts start sess).2.2 with
        | ok u =>
          obtain ⟨tid, htid⟩ := reconcileStep_ok_ticket oracle maxAttempts start sess hx hy
          have hrest := runReconciles_ticket_present oracle maxAttempts n
            (start + (reconcileStep oracle maxAttempts start sess).2.1)
            (reconcileStep oracle maxAttempts start sess).1 tid htid
          simp [runReconciles, hx, hy, hrest]
        | error e =>
          simp only [runReconciles]
          simp [hx, hy]
          exact ih _ _
  · intro t ht
    exact runReconciles_ticket_present oracle maxAttempts k start sess t ht

/-- Witness for the amended C3: four attempts against an always-green
collaborator record at most one successful create, and five attempts on
a session that already has a ticket identifier invoke no create at
all. -/
theorem reconcile_at_most_one_successful_create_check :
    (runReconciles alwaysOk 3 0 sampleWelcome 4).2.2 ≤ 1 ∧
    runReconciles alwaysRetry 3 0 sampleTicketed 5 = (sampleTicketed, 0, 0) :=
  ⟨(reconcile_at_most_one_successful_create alwaysOk 3 4 0 sampleWelcome).1,
   (reconcile_at_most_one_successful_create alwaysRetry 3 5 0 sampleTicketed).2 "OCM-1" rfl⟩

/-- Witness for C5 at a concrete session and the empty input. -/
theorem advance_no_trigger_check :
    (advance sampleWelcome "").newStage = sampleWelcome.currentStage ∧
    (advance sampleWelcome "").responseText = sampleWelcome.currentStage.guidance ∧
    (advance sampleWelcome "").actionsList = sampleWelcome.currentStage.actions ∧
    (advance sampleWelcome "").ticketEvent = none :=
  advance_no_trigger sampleWelcome "" (by decide)

end Onboarding

namespace AgentCli

/-- C8: starting the interactive onboarding run with any missing
identity field (user id, username, or email empty) is rejected
immediately: the CLI exits with the validation failure before any
session is created and before any network call is issued. -/
theorem identity_validation_before_network (userID username email : String) (r : HttpResult)
    (h : userID = "" ∨ username = "" ∨ email = "") :
    runInteractiveInit userID username email r = (CliOutcome.validationFailure, []) := by
  rcases h with h | h | h <;> simp [runInteractiveInit, h]

/-- Witness for C8: a missing username, with a server that would have
answered. -/
theorem identity_validation_before_network_check :
    runInteractiveInit "u1" "" "jane@x.com" (HttpResult.ok sampleOkBody) =
      (CliOutcome.validationFailure, []) :=
  identity_validation_before_network "u1" "" "jane@x.com" (HttpResult.ok sampleOkBody)
    (Or.inr (Or.inl rfl))

/-- C9: each input line of the interactive loop is trimmed and then
dispatched exclusively: an empty result is skipped with no network
call, exactly "quit" and "exit" end the loop with no network call,
exactly "status" issues only one status GET and is never posted, and
every other line is posted to the message endpoint exactly once. -/
theorem interactive_loop_dispatch (sessionID line : String) (rest : List String) :
    (trimSpace line = "" →
      dispatchLine line = LoopAction.skip ∧
      runLoop sessionID (line :: rest) = runLoop sessionID rest) ∧
    ((trimSpace line = "quit" ∨ trimSpace line = "exit") →
      dispatchLine line = LoopAction.quitLoop ∧
      runLoop sessionID (line :: rest) = []) ∧
    (trimSpace line = "status" →
      dispatchLine line = LoopAction.statusQuery ∧
      runLoop sessionID (line :: rest) = NetCall.statusGet sessionID :: runLoop sessionID rest) ∧
    (trimSpace line ≠ "" ∧ trimSpace line ≠ "quit" ∧ trimSpace line ≠ "exit" ∧
        trimSpace line ≠ "status" →
      dispatchLine line = LoopAction.post (trimSpace line) ∧
      runLoop sessionID (line :: rest) =
        NetCall.postMsg sessionID (trimSpace line) :: runLoop sessionID rest) := by
  refine ⟨?_, ?_, ?_, ?_⟩
  · intro h
    have hd : dispatchLine line = LoopAction.skip := by simp [dispatchLine, h]
    exact ⟨hd, by simp [runLoop, hd]⟩
  · intro h
    have hd : dispatchLine line = LoopAction.quitLoop := by
      rcases h with h | h <;> simp [dispatchLine, h]
    exact ⟨hd, by simp [runLoop, hd]⟩
  · intro h
    have hd : dispatchLine line = LoopAction.statusQuery := by simp [dispatchLine, h]
    exact ⟨hd, by simp [runLoop, hd]⟩
  · rintro ⟨h1, h2, h3, h4⟩
    have hd : dispatchLine line = LoopAction.post (trimSpace line) := by
      simp [dispatchLine, h1, h2, h3, h4]
    exact ⟨hd, by simp [runLoop, hd]⟩

/-- Witness for C9: a padded "exit" ends the loop with no network
calls, and a padded ordinary message is posted exactly once. -/
theorem interactive_loop_dispatch_check :
    dispatchLine " exit " = LoopAction.quitLoop ∧
    runLoop "s1" [" exit ", "hello"] = [] ∧
    dispatchLine " what next " = LoopAction.post "what next" ∧
    runLoop "s1" [" what next "] = [NetCall.postMsg "s1" "what next"] := by
  have h1 := (interactive_loop_dispatch "s1" " exit " ["hello"]).2.1 (Or.inr (by decide))
  have h2 := (interactive_loop_dispatch "s1" " what next " []).2.2.2
    ⟨by decide, by decide, by decide, by decide⟩
  exact ⟨h1.1, h1.2, h2.1, h2.2⟩

/-- C10: startOnboardingSession and sendMessage succeed exactly when
the HTTP call succeeded, the envelope decoded, its success flag is
true, and the data payload decoded, returning exactly the decoded
payload; in every other case they return an error, so no caller ever
observes a result derived from a success=false envelope. -/
theorem api_envelope_decode (r : HttpResult) (v : String) (m : MessageResponse) :
    (startOnboardingSession r = Except.ok v ↔
      ∃ body env sess, r = HttpResult.ok body ∧ body.decodeEnvelope = some env ∧
        env.success = true ∧ env.data.decodeStart = some sess ∧ v = sess.session_id) ∧
    (sendMessage r = Except.ok m ↔
      ∃ body env, r = HttpResult.ok body ∧ body.decodeEnvelope = some env ∧
        env.success = true ∧ env.data.decodeMsg = some m) := by
  constructor
  · constructor
    · intro h
      cases r with
      | netErr e => simp [startOnboardingSession] at h
      | ok body =>
        cases henv : body.decodeEnvelope with
        | none => simp [startOnboardingSession, henv] at h
        | some env =>
          by_cases hs : env.success
          · cases hd : env.data.decodeStart with
            | none => simp [startOnboardingSession, henv, hs, hd] at h
            | some sess =>
              refine ⟨body, env, sess, rfl, henv, hs, hd, ?_⟩
              simp [startOnboardingSession, henv, hs, hd] at h
              exact h.symm
          · simp [startOnboardingSession, henv, hs] at h
    · rintro ⟨body, env, sess, rfl, henv, hs, hd, rfl⟩
      simp [startOnboardingSession, henv, hs, hd]
  · constructor
    · intro h
      cases r with
      | netErr e => simp [sendMessage] at h
      | ok body =>
        cases henv : body.decodeEnvelope with
        | none => simp [sendMessage, henv] at h
        | some env =>
          by_cases hs : env.success
          · cases hd : env.data.decodeMsg with
            | none => simp [sendMessage, henv, hs, hd] at h
            | some mr =>
              refine ⟨body, env, rfl, henv, hs, ?_⟩
              simp [sendMessage, henv, hs, hd] at h
              rw [hd, h]
          · simp [sendMessage, henv, hs] at h
    · rintro ⟨body, env, rfl, henv, hs, hd⟩
      simp [sendMessage, henv, hs, hd]

/-- Witness for C10: the sample successful envelope yields exactly the
decoded session id. -/
theorem api_envelope_decode_check :
    startOnboardingSession (HttpResult.ok sampleOkBody) = Except.ok "sess-1" :=
  ((api_envelope_decode (HttpResult.ok sampleOkBody) "sess-1" sampleMsgResp).1).mpr
    ⟨sampleOkBody,
     { success := true
       data := { decodeStart := some sampleStartResp, decodeMsg := some sampleMsgResp }
       error := "" },
     sampleStartResp, rfl, rfl, rfl, rfl, rfl⟩

end AgentCli

